import Mathlib

/-
Verification of the face-attendance front end (static/js/main.js) together
with a spec-level model of the server-side core it talks to.  JS numbers
that carry scores and thresholds are modelled as rationals; messages built
by template strings are modelled as lists of message parts.
-/

namespace FaceDetect

/-- Kind of a message shown by showMessage: the type argument of
showMessage in main.js (success, error, info, warning). -/
inductive MsgType where
  | success
  | error
  | info
  | warning
deriving DecidableEq

/-- One interpolated piece of a message template string. -/
inductive MsgPart where
  | text (s : String)
  | nat (n : Nat)
  | rat (q : ℚ)
deriving DecidableEq

/-- The metrics object of a successful retrain response, as consumed by
retrainModel in main.js: data.metrics.n_employees, data.metrics.n_images,
data.metrics.threshold. -/
structure Metrics where
  n_employees : Nat
  n_images : Nat
  threshold : ℚ
deriving DecidableEq

/-- The three ways the fetch in retrainModel can resolve: a response with
success true carrying metrics, a response with success false carrying a
message, or a thrown error caught by the catch block. -/
inductive RetrainResponse where
  | success (m : Metrics)
  | failure (message : String)
  | thrown (message : String)

/-- An observable action performed by retrainModel on the page. -/
inductive UIEvent where
  | setRetrainDisabled (b : Bool)
  | showMsg (target : String) (parts : List MsgPart) (ty : MsgType)
  | fetchRetrain
deriving DecidableEq

/-- Recognizer of the button-lock events among UI events. -/
def isLockEvent : UIEvent → Bool
  | UIEvent.setRetrainDisabled _ => true
  | _ => false

/-- retrainModel from main.js as the trace of page actions it performs:
disable the retrain button, show the in-progress message, issue the fetch,
show the outcome message, and in the finally block re-enable the button. -/
def retrainModel (r : RetrainResponse) : List UIEvent :=
  UIEvent.setRetrainDisabled true ::
  UIEvent.showMsg "enroll-result"
    [MsgPart.text "⏳ Đang train model... Vui lòng đợi (có thể mất 30s-1p)"] MsgType.info ::
  UIEvent.fetchRetrain ::
  (match r with
   | RetrainResponse.success m =>
       [UIEvent.showMsg "enroll-result"
         [MsgPart.text "✅ Train thành công! Nhân viên: ", MsgPart.nat m.n_employees,
          MsgPart.text ", Ảnh: ", MsgPart.nat m.n_images,
          MsgPart.text ", Threshold: ", MsgPart.rat m.threshold] MsgType.success]
   | RetrainResponse.failure msg =>
       [UIEvent.showMsg "enroll-result" [MsgPart.text "❌ ", MsgPart.text msg] MsgType.error]
   | RetrainResponse.thrown msg =>
       [UIEvent.showMsg "enroll-result" [MsgPart.text "❌ Lỗi: ", MsgPart.text msg] MsgType.error]) ++
  [UIEvent.setRetrainDisabled false]

/-- The fields of a successful recognition response that
displayRecognitionResult in main.js reads. -/
structure RecognitionData where
  is_unknown : Bool
  message : String
  score : ℚ

/-- displayRecognitionResult from main.js: the message parts and the
message type passed to showMessage for a successful recognition response. -/
def displayRecognitionResult (d : RecognitionData) : List MsgPart × MsgType :=
  if d.is_unknown then
    ([MsgPart.text "⚠️ ", MsgPart.text d.message, MsgPart.text " (Score: ",
      MsgPart.rat d.score, MsgPart.text ")"], MsgType.warning)
  else
    ([MsgPart.text "✅ ", MsgPart.text d.message, MsgPart.text "\n📊 Score: ",
      MsgPart.rat d.score], MsgType.success)

/-- An employee record as served by the /api/employees endpoint and read
by loadEmployees in main.js. -/
structure Employee where
  id : Nat
  code : String
  name : String
  active : Bool
deriving DecidableEq

/-- One option element of the enroll-employee-select dropdown; the
placeholder option has value none. -/
structure SelectOption where
  value : Option Nat
  labelText : String
deriving DecidableEq

/-- populateEnrollSelect from main.js: the placeholder option followed by
one option per given employee, valued by the employee id. -/
def populateEnrollSelect (activeEmployees : List Employee) : List SelectOption :=
  SelectOption.mk none "-- Chọn nhân viên để enroll --" ::
    activeEmployees.map fun emp =>
      SelectOption.mk (some emp.id) (emp.code ++ " - " ++ emp.name)

/-- The enrollment dropdown built by loadEmployees in main.js:
populateEnrollSelect applied to the active employees only
(data.data.filter of e.active). -/
def enrollSelectList (employees : List Employee) : List SelectOption :=
  populateEnrollSelect (employees.filter fun e => e.active)

/-- The pieces of window.location that isLocalhost in main.js inspects. -/
structure Location where
  hostname : String
  protocol : String

/-- The JS string startsWith method: the pattern is a prefix of the
character sequence of the receiver. -/
def jsStartsWith (s p : String) : Bool :=
  p.data.isPrefixOf s.data

/-- isLocalhost from main.js: the origin gate for webcam use. -/
def isLocalhost (loc : Location) : Bool :=
  loc.hostname == "localhost" ||
  loc.hostname == "127.0.0.1" ||
  loc.hostname == "[::1]" ||
  jsStartsWith loc.hostname "127." ||
  loc.protocol == "https:"

/-- The navigator capabilities checkWebcamSupport in main.js probes:
whether the modern mediaDevices.getUserMedia API exists, and whether any
of the four legacy getUserMedia entry points exists. -/
structure NavigatorCaps where
  hasModern : Bool
  hasLegacy : Bool

/-- The four possible results of checkWebcamSupport in main.js; the JS
value false is the unsupported constructor. -/
inductive WebcamSupport where
  | not_localhost
  | modern
  | legacy
  | unsupported
deriving DecidableEq

/-- checkWebcamSupport from main.js. -/
def checkWebcamSupport (loc : Location) (nav : NavigatorCaps) : WebcamSupport :=
  if !(isLocalhost loc) then WebcamSupport.not_localhost
  else if nav.hasModern then WebcamSupport.modern
  else if nav.hasLegacy then WebcamSupport.legacy
  else WebcamSupport.unsupported

/-- An observable action performed by toggleWebcam on the page and the
media subsystem. -/
inductive WebcamEvent where
  | showMsg (ty : MsgType)
  | requestMedia
  | stopMedia
deriving DecidableEq

/-- toggleWebcam from main.js as the trace of actions it performs, given
whether the webcam is currently active and whether the media request would
be granted: when inactive it first consults checkWebcamSupport and aborts
with an error message on not_localhost or unsupported, only otherwise
requesting a media stream; when active it stops the stream. -/
def toggleWebcam (active : Bool) (loc : Location) (nav : NavigatorCaps)
    (grant : Bool) : List WebcamEvent :=
  if active = false then
    match checkWebcamSupport loc nav with
    | WebcamSupport.not_localhost => [WebcamEvent.showMsg MsgType.error]
    | WebcamSupport.unsupported => [WebcamEvent.showMsg MsgType.error]
    | _ =>
      WebcamEvent.requestMedia ::
        (if grant then [WebcamEvent.showMsg MsgType.success]
         else [WebcamEvent.showMsg MsgType.error])
  else
    [WebcamEvent.stopMedia]

/-- ENROLL_TARGET from main.js. -/
def ENROLL_TARGET : Nat := 10

/-- An observable action of the enrollment capture loop: the awaited
setTimeout delay, and the capture request issued by captureEnrollImage. -/
inductive EnrollEvent where
  | delay (ms : Nat)
  | captureRequest (idx : Nat)
deriving DecidableEq

/-- The for-loop body of startEnrollCapture in main.js over the remaining
loop indices: each iteration awaits a 500 ms delay then issues one capture
request; on success (ok i) enrollCount is incremented; the loop breaks as
soon as enrollCount differs from i + 1.  Returns the event trace and the
final enrollCount. -/
def enrollLoop (ok : Nat → Bool) : Nat → List Nat → List EnrollEvent × Nat
  | count, [] => ([], count)
  | count, i :: rest =>
    let count1 := if ok i then count + 1 else count
    if count1 = i + 1 then
      let r := enrollLoop ok count1 rest
      (EnrollEvent.delay 500 :: EnrollEvent.captureRequest i :: r.1, r.2)
    else
      ([EnrollEvent.delay 500, EnrollEvent.captureRequest i], count1)

/-- startEnrollCapture from main.js (the part after its guard): reset
enrollCount to 0, run the capture loop over indices 0 to ENROLL_TARGET - 1,
and show the completion message exactly when the final enrollCount equals
ENROLL_TARGET.  Returns the event trace, the final enrollCount, and
whether the completion message is shown. -/
def startEnrollCapture (ok : Nat → Bool) : List EnrollEvent × Nat × Bool :=
  let r := enrollLoop ok 0 (List.range ENROLL_TARGET)
  (r.1, r.2, r.2 == ENROLL_TARGET)

/-- Modelled from the spec: the ModelArtifact produced by the Model
Trainer (server-side code not under src).  The reduction basis and the
classifier are abstracted to the version tag of the TrainingSet snapshot
each was trained from; the decision threshold and the metrics are carried
as data. -/
structure ModelArtifact where
  basisVersion : Nat
  classifierVersion : Nat
  threshold : ℚ
  metrics : Metrics
deriving DecidableEq

/-- Modelled from the spec: one interaction with the Model Registry
(server-side code not under src) — either a publish of a whole artifact or
a getActive read observing a value. -/
inductive RegistryEvent where
  | publish (a : ModelArtifact)
  | readActive (r : Option ModelArtifact)
deriving DecidableEq

/-- Modelled from the spec: validity of a registry interaction trace
starting from active reference s.  The spec mandates an atomic-publish
discipline: publish swaps the single active reference in one step, and
every getActive read observes exactly the current reference. -/
def validFrom : Option ModelArtifact → List RegistryEvent → Prop
  | _, [] => True
  | _, RegistryEvent.publish a :: rest => validFrom (some a) rest
  | s, RegistryEvent.readActive r :: rest => r = s ∧ validFrom s rest

/-- Modelled from the spec: the terminal encoding errors of the Face
Encoder (server-side code not under src). -/
inductive EncodingError where
  | noFaceDetected
  | multipleFacesDetected
deriving DecidableEq

/-- Modelled from the spec: the outcome of one recognition call — the
NotReady system-not-trained outcome, the explicit scored unknown outcome,
or a known employee label with its score. -/
inductive RecognizeOutcome where
  | notReady
  | unknown (score : ℚ)
  | known (labelId : Nat) (score : ℚ)
deriving DecidableEq

/-- Modelled from the spec: the Recognition Engine (server-side code not
under src).  Encoding errors propagate; with no active artifact the result
is the NotReady outcome, returned rather than thrown; otherwise the
classifier output (label, score) is compared against the artifact
threshold: a score that fails to clear the threshold (is below it) yields
the scored unknown outcome, and a clearing score yields the known label
with its score. -/
def recognize (active : Option ModelArtifact)
    (enc : Except EncodingError (Nat × ℚ)) : Except EncodingError RecognizeOutcome :=
  match enc with
  | Except.error e => Except.error e
  | Except.ok lv =>
    match active with
    | none => Except.ok RecognizeOutcome.notReady
    | some a =>
      if lv.2 < a.threshold then Except.ok (RecognizeOutcome.unknown lv.2)
      else Except.ok (RecognizeOutcome.known lv.1 lv.2)

/-- Modelled from the spec: the reply of the Retrain Orchestrator
(server-side code not under src) to a retrain request — either the request
starts a run or it is rejected because one is in progress. -/
inductive RetrainReply where
  | started
  | retrainInProgress
deriving DecidableEq

/-- Modelled from the spec: the state the Retrain Orchestrator and the
Model Registry share — the single-flight busy flag and the active
artifact reference. -/
structure OrchestratorState where
  busy : Bool
  registry : Option ModelArtifact
deriving DecidableEq

/-- Modelled from the spec: a retrain request against the Retrain
Orchestrator.  While a run is in progress the request is rejected with
retrainInProgress and the state is unchanged; otherwise the busy flag is
taken and the run starts. -/
def requestRetrain (s : OrchestratorState) : OrchestratorState × RetrainReply :=
  if s.busy then (s, RetrainReply.retrainInProgress)
  else (OrchestratorState.mk true s.registry, RetrainReply.started)

/-- Modelled from the spec: completion of a retrain run.  On Trainer
success (some artifact) the artifact is published to the registry; on
failure the previously active artifact is untouched; in both cases the
busy flag is released. -/
def finishRetrain (s : OrchestratorState) (result : Option ModelArtifact) : OrchestratorState :=
  match result with
  | some a => OrchestratorState.mk false (some a)
  | none => OrchestratorState.mk false s.registry

theorem enrollLoop_run_all (ok : Nat → Bool) :
    ∀ (n c : Nat), (∀ k, k < n → ok (c + k) = true) →
    enrollLoop ok c (List.range' c n) =
      ((List.range' c n).flatMap fun i =>
        [EnrollEvent.delay 500, EnrollEvent.captureRequest i], c + n)
  | 0, c, _ => by simp [enrollLoop]
  | n + 1, c, h => by
    have hc : ok c = true := by simpa using h 0 (Nat.succ_pos n)
    have ih := enrollLoop_run_all ok n (c + 1) fun k hk => by
      have hx := h (k + 1) (by omega)
      simpa [Nat.add_assoc, Nat.add_comm 1 k] using hx
    simp only [List.range'_succ]
    simp [enrollLoop, hc, ih, List.flatMap_cons, List.range'_succ]
    omega

theorem enrollLoop_run_fail (ok : Nat → Bool) :
    ∀ (n c j : Nat), j < n → ok (c + j) = false → (∀ k, k < j → ok (c + k) = true) →
    enrollLoop ok c (List.range' c n) =
      ((List.range' c (j + 1)).flatMap fun i =>
        [EnrollEvent.delay 500, EnrollEvent.captureRequest i], c + j)
  | 0, _, j, hj, _, _ => absurd hj (Nat.not_lt_zero j)
  | n + 1, c, 0, _, hf, _ => by
    have hc : ok c = false := by simpa using hf
    simp only [List.range'_succ]
    simp [enrollLoop, hc, List.flatMap_cons]
  | n + 1, c, j + 1, hj, hf, hpre => by
    have hc : ok c = true := by simpa using hpre 0 (Nat.succ_pos j)
    have ih := enrollLoop_run_fail ok n (c + 1) j (by omega)
      (by
        have hx := hf
        simpa [Nat.add_assoc, Nat.add_comm 1 j] using hx)
      (fun k hk => by
        have hx := hpre (k + 1) (by omega)
        simpa [Nat.add_assoc, Nat.add_comm 1 k] using hx)
    simp only [List.range'_succ]
    simp [enrollLoop, hc, ih, List.flatMap_cons, List.range'_succ]
    omega

theorem validFrom_read_mem :
    ∀ (tr : List RegistryEvent) (s : Option ModelArtifact) (a : ModelArtifact),
      validFrom s tr → RegistryEvent.readActive (some a) ∈ tr →
      s = some a ∨ RegistryEvent.publish a ∈ tr
  | [], _, _, _, hmem => absurd hmem (List.not_mem_nil _)
  | RegistryEvent.publish b :: rest, _, a, hv, hmem => by
    have hv2 : validFrom (some b) rest := hv
    rcases List.mem_cons.mp hmem with hh | ht
    · exact RegistryEvent.noConfusion hh
    · rcases validFrom_read_mem rest (some b) a hv2 ht with h | h
      · injection h with hba
        exact Or.inr (List.mem_cons.mpr (Or.inl (by rw [hba])))
      · exact Or.inr (List.mem_cons.mpr (Or.inr h))
  | RegistryEvent.readActive r :: rest, s, a, hv, hmem => by
    obtain ⟨hr, hv2⟩ := hv
    rcases List.mem_cons.mp hmem with hh | ht
    · injection hh with hra
      left
      rw [← hr, ← hra]
    · rcases validFrom_read_mem rest s a hv2 ht with h | h
      · exact Or.inl h
      · exact Or.inr (List.mem_cons.mpr (Or.inr h))

theorem validFrom_no_publish :
    ∀ (tr : List RegistryEvent) (s : Option ModelArtifact),
      validFrom s tr → (∀ a : ModelArtifact, RegistryEvent.publish a ∉ tr) →
      ∀ r, RegistryEvent.readActive r ∈ tr → r = s
  | [], _, _, _, _, hmem => absurd hmem (List.not_mem_nil _)
  | RegistryEvent.publish b :: _, _, _, hnp, _, _ =>
      absurd (List.mem_cons_self _ _) (hnp b)
  | RegistryEvent.readActive q :: rest, s, hv, hnp, r, hmem => by
    obtain ⟨hq, hv2⟩ := hv
    rcases List.mem_cons.mp hmem with hh | ht
    · injection hh with h1
      rw [h1, hq]
    · exact validFrom_no_publish rest s hv2
        (fun a ha => hnp a (List.mem_cons.mpr (Or.inr ha))) r ht

/-- Claim C1: for every successful retrain call, the message retrainModel
shows to the caller carries the employee count, the total image count and
the chosen threshold of the returned metrics, so the caller can read all
three from the result. -/
theorem retrain_metrics_complete (m : Metrics) :
    ∃ parts : List MsgPart,
      UIEvent.showMsg "enroll-result" parts MsgType.success ∈
        retrainModel (RetrainResponse.success m) ∧
      MsgPart.nat m.n_employees ∈ parts ∧
      MsgPart.nat m.n_images ∈ parts ∧
      MsgPart.rat m.threshold ∈ parts := by
  refine ⟨[MsgPart.text "✅ Train thành công! Nhân viên: ", MsgPart.nat m.n_employees,
           MsgPart.text ", Ảnh: ", MsgPart.nat m.n_images,
           MsgPart.text ", Threshold: ", MsgPart.rat m.threshold], ?_, ?_, ?_, ?_⟩ <;>
    simp [retrainModel]

/-- Claim C2: a recognition whose score fails to clear the active artifact
threshold yields the explicit unknown outcome carrying that score, as a
successful value and not an error, and the front end displays such a
response as a scored warning, never an error and never unscored. -/
theorem unknown_outcome_scored (a : ModelArtifact) (l : Nat) (v : ℚ)
    (h : v < a.threshold) (d : RecognitionData) (hd : d.is_unknown = true) :
    recognize (some a) (Except.ok (l, v)) = Except.ok (RecognizeOutcome.unknown v) ∧
    (displayRecognitionResult d).2 = MsgType.warning ∧
    MsgPart.rat d.score ∈ (displayRecognitionResult d).1 := by
  refine ⟨?_, ?_, ?_⟩
  · simp [recognize, h]
  · simp [displayRecognitionResult, hd]
  · simp [displayRecognitionResult, hd]

theorem unknown_outcome_scored_witness :
    recognize (some (ModelArtifact.mk 1 1 1 (Metrics.mk 2 20 1))) (Except.ok (0, 0)) =
      Except.ok (RecognizeOutcome.unknown 0) ∧
    (displayRecognitionResult (RecognitionData.mk true "Unknown" 0)).2 = MsgType.warning ∧
    MsgPart.rat (RecognitionData.mk true "Unknown" 0).score ∈
      (displayRecognitionResult (RecognitionData.mk true "Unknown" 0)).1 :=
  unknown_outcome_scored (ModelArtifact.mk 1 1 1 (Metrics.mk 2 20 1)) 0 0 (by norm_num)
    (RecognitionData.mk true "Unknown" 0) rfl

/-- Claim C3: publish is atomic with respect to getActive — over every
valid registry trace, a reader observes either the initial state or an
artifact that was published as one whole, so when every published artifact
pairs a basis and a classifier from the same training snapshot, every
observed artifact does too; no mixture is ever read. -/
theorem publish_atomic_no_mixture (tr : List RegistryEvent)
    (hv : validFrom none tr)
    (hcoh : ∀ a : ModelArtifact, RegistryEvent.publish a ∈ tr →
      a.basisVersion = a.classifierVersion)
    (a : ModelArtifact) (hr : RegistryEvent.readActive (some a) ∈ tr) :
    RegistryEvent.publish a ∈ tr ∧ a.basisVersion = a.classifierVersion := by
  rcases validFrom_read_mem tr none a hv hr with h | h
  · exact Option.noConfusion h
  · exact ⟨h, hcoh a h⟩

theorem publish_atomic_no_mixture_witness :
    RegistryEvent.publish (ModelArtifact.mk 3 3 1 (Metrics.mk 2 20 1)) ∈
      [RegistryEvent.publish (ModelArtifact.mk 3 3 1 (Metrics.mk 2 20 1)),
       RegistryEvent.readActive (some (ModelArtifact.mk 3 3 1 (Metrics.mk 2 20 1)))] ∧
    (ModelArtifact.mk 3 3 1 (Metrics.mk 2 20 1)).basisVersion =
      (ModelArtifact.mk 3 3 1 (Metrics.mk 2 20 1)).classifierVersion :=
  publish_atomic_no_mixture
    [RegistryEvent.publish (ModelArtifact.mk 3 3 1 (Metrics.mk 2 20 1)),
     RegistryEvent.readActive (some (ModelArtifact.mk 3 3 1 (Metrics.mk 2 20 1)))]
    (by simp [validFrom])
    (by
      intro b hb
      rcases List.mem_cons.mp hb with h | h
      · injection h with h1
        rw [h1]
      · rcases List.mem_cons.mp h with h2 | h2
        · exact RegistryEvent.noConfusion h2
        · exact absurd h2 (List.not_mem_nil _))
    (ModelArtifact.mk 3 3 1 (Metrics.mk 2 20 1))
    (by simp)

/-- Claim C4: retraining is single-flight — from an idle state a first
retrain request starts, a second request made while the first is still
running is rejected with retrainInProgress and changes nothing, and the
first run still completes and publishes its artifact with the lock
released. -/
theorem retrain_single_flight (s0 : OrchestratorState) (h : s0.busy = false)
    (a : ModelArtifact) :
    (requestRetrain s0).2 = RetrainReply.started ∧
    (requestRetrain (requestRetrain s0).1).2 = RetrainReply.retrainInProgress ∧
    (requestRetrain (requestRetrain s0).1).1 = (requestRetrain s0).1 ∧
    (finishRetrain (requestRetrain (requestRetrain s0).1).1 (some a)).registry = some a ∧
    (finishRetrain (requestRetrain (requestRetrain s0).1).1 (some a)).busy = false := by
  simp [requestRetrain, finishRetrain, h]

theorem retrain_single_flight_witness :
    (requestRetrain (OrchestratorState.mk false none)).2 = RetrainReply.started ∧
    (requestRetrain (requestRetrain (OrchestratorState.mk false none)).1).2 =
      RetrainReply.retrainInProgress ∧
    (requestRetrain (requestRetrain (OrchestratorState.mk false none)).1).1 =
      (requestRetrain (OrchestratorState.mk false none)).1 ∧
    (finishRetrain (requestRetrain (requestRetrain (OrchestratorState.mk false none)).1).1
      (some (ModelArtifact.mk 1 1 1 (Metrics.mk 2 20 1)))).registry =
      some (ModelArtifact.mk 1 1 1 (Metrics.mk 2 20 1)) ∧
    (finishRetrain (requestRetrain (requestRetrain (OrchestratorState.mk false none)).1).1
      (some (ModelArtifact.mk 1 1 1 (Metrics.mk 2 20 1)))).busy = false :=
  retrain_single_flight (OrchestratorState.mk false none) rfl
    (ModelArtifact.mk 1 1 1 (Metrics.mk 2 20 1))

/-- Claim C7: the disabled retrain trigger is the single-flight lock of
retrainModel — every run first disables the button, re-enables it as its
last action via the finally block on every exit path (success, failure or
thrown error), and touches the button exactly those two times. -/
theorem retrain_lock_released_all_paths (r : RetrainResponse) :
    (retrainModel r).head? = some (UIEvent.setRetrainDisabled true) ∧
    (retrainModel r).getLast? = some (UIEvent.setRetrainDisabled false) ∧
    (retrainModel r).filter isLockEvent =
      [UIEvent.setRetrainDisabled true, UIEvent.setRetrainDisabled false] := by
  cases r <;> exact ⟨rfl, rfl, rfl⟩

/-- Claim C8: a recognition performed before any artifact has ever been
published observes an empty registry and yields the NotReady outcome as a
returned value — never the unknown classification outcome and never an
error. -/
theorem recognize_not_ready_before_publish (tr : List RegistryEvent)
    (hv : validFrom none tr)
    (hnp : ∀ a : ModelArtifact, RegistryEvent.publish a ∉ tr)
    (r : Option ModelArtifact) (hr : RegistryEvent.readActive r ∈ tr)
    (l : Nat) (s : ℚ) :
    r = none ∧
    recognize r (Except.ok (l, s)) = Except.ok RecognizeOutcome.notReady ∧
    ∀ v : ℚ, recognize r (Except.ok (l, s)) ≠ Except.ok (RecognizeOutcome.unknown v) := by
  have hnone : r = none := validFrom_no_publish tr none hv hnp r hr
  subst hnone
  refine ⟨rfl, rfl, ?_⟩
  intro v hcontra
  simp [recognize] at hcontra

theorem recognize_not_ready_before_publish_witness :
    (none : Option ModelArtifact) = none ∧
    recognize none (Except.ok (0, 0)) = Except.ok RecognizeOutcome.notReady ∧
    ∀ v : ℚ, recognize none (Except.ok (0, 0)) ≠ Except.ok (RecognizeOutcome.unknown v) :=
  recognize_not_ready_before_publish [RegistryEvent.readActive none]
    (by simp [validFrom])
    (by
      intro a ha
      rcases List.mem_cons.mp ha with h | h
      · exact RegistryEvent.noConfusion h
      · exact absurd h (List.not_mem_nil _))
    none (by simp) 0 0

/-- Claim C5: when every capture succeeds, the webcam enrollment capture
flow issues exactly ENROLL_TARGET (ten) capture requests, each preceded by
a 500 ms delay. -/
theorem enroll_capture_ten_with_delays (ok : Nat → Bool)
    (h : ∀ i, i < ENROLL_TARGET → ok i = true) :
    (startEnrollCapture ok).1 =
      ((List.range ENROLL_TARGET).flatMap fun i =>
        [EnrollEvent.delay 500, EnrollEvent.captureRequest i]) ∧
    ((startEnrollCapture ok).1.filter fun e =>
        match e with
        | EnrollEvent.captureRequest _ => true
        | _ => false).length = ENROLL_TARGET := by
  have hrun := enrollLoop_run_all ok ENROLL_TARGET 0 fun k hk => by simpa using h k hk
  have h1 : (startEnrollCapture ok).1 =
      ((List.range ENROLL_TARGET).flatMap fun i =>
        [EnrollEvent.delay 500, EnrollEvent.captureRequest i]) := by
    simp only [startEnrollCapture, List.range_eq_range', hrun]
  refine ⟨h1, ?_⟩
  rw [h1]
  decide

theorem enroll_capture_ten_with_delays_witness :
    (startEnrollCapture fun _ => true).1 =
      ((List.range ENROLL_TARGET).flatMap fun i =>
        [EnrollEvent.delay 500, EnrollEvent.captureRequest i]) ∧
    ((startEnrollCapture fun _ => true).1.filter fun e =>
        match e with
        | EnrollEvent.captureRequest _ => true
        | _ => false).length = ENROLL_TARGET :=
  enroll_capture_ten_with_delays (fun _ => true) (fun _ _ => rfl)

/-- Claim C10: the enrollment capture loop stops at the first failed
capture — after the first failing request no further capture request is
issued in that run — and the completion message is shown exactly when all
ENROLL_TARGET captures succeeded. -/
theorem enroll_stops_at_first_failure (ok : Nat → Bool) :
    (∀ j, j < ENROLL_TARGET → ok j = false → (∀ i, i < j → ok i = true) →
      (∀ k, j < k → EnrollEvent.captureRequest k ∉ (startEnrollCapture ok).1) ∧
      (startEnrollCapture ok).2.2 = false) ∧
    ((startEnrollCapture ok).2.2 = true ↔ ∀ i, i < ENROLL_TARGET → ok i = true) := by
  have part1 : ∀ j, j < ENROLL_TARGET → ok j = false → (∀ i, i < j → ok i = true) →
      (∀ k, j < k → EnrollEvent.captureRequest k ∉ (startEnrollCapture ok).1) ∧
      (startEnrollCapture ok).2.2 = false := by
    intro j hj hja hpre
    have hrun := enrollLoop_run_fail ok ENROLL_TARGET 0 j hj (by simpa using hja)
      fun k hk => by simpa using hpre k hk
    have h1 : (startEnrollCapture ok).1 =
        ((List.range' 0 (j + 1)).flatMap fun i =>
          [EnrollEvent.delay 500, EnrollEvent.captureRequest i]) := by
      simp only [startEnrollCapture, List.range_eq_range', hrun]
    have h2 : (startEnrollCapture ok).2.2 = ((0 + j : Nat) == ENROLL_TARGET) := by
      simp only [startEnrollCapture, List.range_eq_range', hrun]
    constructor
    · intro k hk hmem
      rw [h1] at hmem
      rcases List.mem_flatMap.mp hmem with ⟨i, hi, hin⟩
      rcases List.mem_range'.mp hi with ⟨t, ht, hti⟩
      simp only [List.mem_cons, List.mem_singleton] at hin
      rcases hin with hcap | hin
      · exact EnrollEvent.noConfusion hcap
      · rcases hin with hcap | hfalse
        · injection hcap with hki
          omega
        · exact absurd hfalse (List.not_mem_nil _)
    · rw [h2]
      have hj10 : j < 10 := hj
      simp only [beq_eq_false_iff_ne]
      omega
  refine ⟨part1, ?_, ?_⟩
  · intro hdone
    by_contra hnall
    push_neg at hnall
    rcases hnall with ⟨i, hi, hni⟩
    have hifalse : ok i = false := by
      cases hvi : ok i
      · rfl
      · exact absurd hvi hni
    have hex : ∃ t, ok t = false := ⟨i, hifalse⟩
    have hfs : ok (Nat.find hex) = false := Nat.find_spec hex
    have hle : Nat.find hex ≤ i := Nat.find_min' hex hifalse
    have hjlt : Nat.find hex < ENROLL_TARGET := lt_of_le_of_lt hle hi
    have hpre : ∀ k, k < Nat.find hex → ok k = true := by
      intro k hk
      cases hvk : ok k
      · exact absurd hvk (Nat.find_min hex hk)
      · rfl
    have hflag := (part1 (Nat.find hex) hjlt hfs hpre).2
    rw [hdone] at hflag
    exact Bool.noConfusion hflag
  · intro hall
    have hrun := enrollLoop_run_all ok ENROLL_TARGET 0 fun k hk => by simpa using hall k hk
    simp only [startEnrollCapture, List.range_eq_range', hrun, Nat.zero_add]
    decide

theorem enroll_stops_at_first_failure_witness :
    EnrollEvent.captureRequest 5 ∉ (startEnrollCapture fun i => decide (i = 0)).1 ∧
    (startEnrollCapture fun i => decide (i = 0)).2.2 = false := by
  have h := (enroll_stops_at_first_failure fun i => decide (i = 0)).1 1 (by decide)
    (by decide)
    (fun i hi => by
      have h0 : i = 0 := Nat.lt_one_iff.mp hi
      rw [h0]
      decide)
  exact ⟨h.1 5 (by decide), h.2⟩

/-- Claim C6: an employee in the loaded list is offered by the enrollment
selector exactly when its active flag is true: the option built for it is
in the dropdown list if and only if it is active (employee ids identify
employees). -/
theorem enroll_select_active_only (employees : List Employee) (e : Employee)
    (he : e ∈ employees)
    (hid : ∀ d, d ∈ employees → d.id = e.id → d = e) :
    (SelectOption.mk (some e.id) (e.code ++ " - " ++ e.name) ∈ enrollSelectList employees) ↔
      e.active = true := by
  unfold enrollSelectList populateEnrollSelect
  constructor
  · intro hmem
    rcases List.mem_cons.mp hmem with hhead | htail
    · exact absurd hhead (by simp)
    · rcases List.mem_map.mp htail with ⟨d, hd, hopt⟩
      have hdmem := (List.mem_filter.mp hd).1
      have hdact : d.active = true := by
        have hp := (List.mem_filter.mp hd).2
        simpa using hp
      have hide : d.id = e.id := by
        have hval := congrArg SelectOption.value hopt
        simpa using hval
      have hde : d = e := hid d hdmem hide
      rw [← hde]
      exact hdact
  · intro hact
    refine List.mem_cons.mpr (Or.inr ?_)
    refine List.mem_map.mpr ⟨e, ?_, rfl⟩
    exact List.mem_filter.mpr ⟨he, by simpa using hact⟩

theorem enroll_select_active_only_witness :
    (SelectOption.mk (some (Employee.mk 1 "E01" "Alice" true).id)
        ((Employee.mk 1 "E01" "Alice" true).code ++ " - " ++
          (Employee.mk 1 "E01" "Alice" true).name) ∈
      enrollSelectList [Employee.mk 1 "E01" "Alice" true]) ↔
    (Employee.mk 1 "E01" "Alice" true).active = true :=
  enroll_select_active_only [Employee.mk 1 "E01" "Alice" true]
    (Employee.mk 1 "E01" "Alice" true)
    (List.mem_singleton.mpr rfl)
    (fun _ hd _ => List.mem_singleton.mp hd)

/-- Claim C9: webcam capture passes the origin gate exactly when the
hostname is localhost, 127.0.0.1, the bracketed IPv6 loopback, a name
starting with 127., or the protocol is https; for every other origin
checkWebcamSupport returns not_localhost and toggleWebcam aborts without
ever requesting a media stream. -/
theorem webcam_origin_gate (loc : Location) (nav : NavigatorCaps) :
    (checkWebcamSupport loc nav = WebcamSupport.not_localhost ↔
      ¬(loc.hostname = "localhost" ∨ loc.hostname = "127.0.0.1" ∨
        loc.hostname = "[::1]" ∨ jsStartsWith loc.hostname "127." = true ∨
        loc.protocol = "https:")) ∧
    (checkWebcamSupport loc nav = WebcamSupport.not_localhost →
      ∀ (active grant : Bool), WebcamEvent.requestMedia ∉ toggleWebcam active loc nav grant) := by
  have htrue : isLocalhost loc = true ↔
      (loc.hostname = "localhost" ∨ loc.hostname = "127.0.0.1" ∨
        loc.hostname = "[::1]" ∨ jsStartsWith loc.hostname "127." = true ∨
        loc.protocol = "https:") := by
    simp [isLocalhost, or_assoc]
  have hiff : checkWebcamSupport loc nav = WebcamSupport.not_localhost ↔
      isLocalhost loc = false := by
    unfold checkWebcamSupport
    cases hl : isLocalhost loc
    · simp
    · cases hm : nav.hasModern
      · cases hg : nav.hasLegacy <;> simp
      · simp
  have hfalse : isLocalhost loc = false ↔
      ¬(loc.hostname = "localhost" ∨ loc.hostname = "127.0.0.1" ∨
        loc.hostname = "[::1]" ∨ jsStartsWith loc.hostname "127." = true ∨
        loc.protocol = "https:") := by
    rw [← htrue]
    cases isLocalhost loc <;> simp
  refine ⟨hiff.trans hfalse, ?_⟩
  intro hnl active grant
  cases active
  · simp [toggleWebcam, hnl]
  · simp [toggleWebcam]

theorem webcam_origin_gate_witness :
    WebcamEvent.requestMedia ∉
      toggleWebcam false (Location.mk "example.com" "http:")
        (NavigatorCaps.mk true true) true :=
  (webcam_origin_gate (Location.mk "example.com" "http:") (NavigatorCaps.mk true true)).2
    (by decide) false true

end FaceDetect
